import Mathlib

/-!
Shallow embedding of the Luna conversation-turn core:
`src/services/geminiService.ts`, `src/services/storageService.ts`,
`src/hooks/useSpeechSynthesis.ts` (both hooks) and the controller logic of
`src/App.tsx`.  JavaScript strings are modelled as Lean `String`
(`.trim()` as the character-level `jsTrim`, `.includes(p)` as a structural
substring check, string truthiness as `≠ ""`), `Date` instants as `Int`
milliseconds, and the asynchronous network call as an explicit
`NetOutcome` parameter describing how the awaited promise settles.
-/

set_option maxRecDepth 2000

namespace Luna

/-- Helper for `errorMessage.includes(pat)`: does `pat` occur at the head of `l`? -/
def charsAt : List Char → List Char → Bool
  | _, [] => true
  | [], _ :: _ => false
  | a :: as, b :: bs => a = b && charsAt as bs

/-- Core of `errorMessage.includes(pat)`: does `pat` occur anywhere in `l`? -/
def charsHave : List Char → List Char → Bool
  | [], pat => pat.isEmpty
  | a :: as, pat => charsAt (a :: as) pat || charsHave as pat

/-- JavaScript `s.includes(pat)`. -/
def strIncludes (s pat : String) : Bool :=
  charsHave s.toList pat.toList

/-- Drop leading whitespace characters. -/
def dropWhite : List Char → List Char
  | [] => []
  | c :: cs => if c.isWhitespace then dropWhite cs else c :: cs

/-- JavaScript `s.trim()`: strip whitespace from both ends.  (Lean's own
`String.trim` is defined by well-founded recursion on byte positions and
does not evaluate inside the kernel, so the JS operation is modelled
directly on the character list.) -/
def jsTrim (s : String) : String :=
  String.mk ((dropWhite (dropWhite s.data).reverse).reverse)

/-- From `types.ts`: `ChatMessageSender`. -/
inductive ChatMessageSender
  | user
  | luna
  | system
  deriving DecidableEq, Repr

/-- From `types.ts`: `AppPhase`. -/
inductive AppPhase
  | INITIAL_SETUP
  | READY_TO_CHAT
  | USER_SPEAKING
  | PROCESSING_USER_INPUT
  | LUNA_THINKING
  | LUNA_SPEAKING
  | SESSION_ENDED
  | ERROR
  deriving DecidableEq, Repr

/-- From `types.ts`: `ChatMessage`; `timestamp : Date` modelled as ms since epoch. -/
structure ChatMessage where
  id : String
  sender : ChatMessageSender
  text : String
  timestamp : Int
  audioUrl : Option String := none
  deriving DecidableEq, Repr

/-- From `geminiService.ts`: `ServiceMetrics`.  `averageResponseTime` is a JS
number computed as an exact quotient; modelled as `Rat`.
`lastSuccessfulRequest : Date` modelled as `Option Int` (ms). -/
structure ServiceMetrics where
  requestCount : Nat
  errorCount : Nat
  lastError : Option String := none
  lastSuccessfulRequest : Option Int := none
  averageResponseTime : Rat := 0
  deriving DecidableEq, Repr

/-- The private state of `GeminiServiceManager`: the `ai` client handle
(`ai ≠ null` as a Bool), the metrics object and the rolling response-time
window. -/
structure GeminiState where
  ai : Bool
  metrics : ServiceMetrics
  responseTimes : List Nat
  deriving DecidableEq, Repr

/-- Metrics as first constructed by `GeminiServiceManager`. -/
def initialMetrics : ServiceMetrics :=
  { requestCount := 0, errorCount := 0, averageResponseTime := 0 }

/-- Source `GeminiServiceManager.logError`: bumps `errorCount`, records `lastError`. -/
def logError (st : GeminiState) (e : String) : GeminiState :=
  { st with metrics :=
      { st.metrics with
        errorCount := st.metrics.errorCount + 1
        lastError := some e } }

/-- Source `GeminiServiceManager.recordResponseTime`: pushes the elapsed time,
drops the oldest entry beyond 100, recomputes the average.  The source
computes `Date.now() - startTime`; the elapsed time is passed directly. -/
def recordResponseTime (st : GeminiState) (responseTime : Nat) : GeminiState :=
  let times := st.responseTimes ++ [responseTime]
  let times := if times.length > 100 then times.tail else times
  { st with
    responseTimes := times
    metrics :=
      { st.metrics with
        averageResponseTime :=
          (times.foldl (fun sum t => sum + (t : Rat)) 0) / (times.length : Rat) } }

/-- Source `GeminiServiceManager.getMetrics`: `return { ...this.metrics }` — a
spread copy of the metrics object.  In this value-semantics embedding any
record update applied to the returned value leaves `st` untouched, exactly
as mutating the JS copy leaves the manager's own metrics untouched. -/
def getMetrics (st : GeminiState) : ServiceMetrics :=
  st.metrics

/-- Source `GeminiServiceManager.isHealthy`: `this.ai !== null && this.metrics.errorCount < 10`. -/
def isHealthy (st : GeminiState) : Bool :=
  st.ai && decide (st.metrics.errorCount < 10)

/-- How the awaited `Promise.race([apiCall, timeoutPromise])` settles:
the API resolves first (with `response.text`, possibly absent/empty, after
`elapsed` ms), the API rejects first with an error message, or the
30-second timer wins the race. -/
inductive NetOutcome
  | success (text : Option String) (elapsed : Nat)
  | failure (errorMessage : String)
  | timeout
  deriving DecidableEq, Repr

/-- The canned string of the `ai === null` path. -/
def msgTechnicalDifficulties : String :=
  "I'm currently experiencing technical difficulties. Please try again in a moment."

/-- The canned guidance string of the empty/whitespace input guard. -/
def msgGuidance : String :=
  "I didn't catch that. Could you please share your thoughts again?"

/-- The canned too-long string of the length-over-4000 guard. -/
def msgTooLong : String :=
  "That's quite a lot to process at once. Could you break that down into smaller thoughts for me?"

/-- The canned string of the empty-response path. -/
def msgEmptyResponse : String :=
  "I'm sorry, I seem to be having a little trouble forming a response right now. Could you try saying that again?"

/-- Timeout apology (catch branch, message includes "timeout"). -/
def msgTimeoutApology : String :=
  "I'm taking a bit longer than usual to respond. Please try again."

/-- Quota/rate-limit apology (catch branch, message includes "quota"/"limit"). -/
def msgQuotaApology : String :=
  "I'm experiencing high demand right now. Please try again in a few minutes."

/-- Connectivity apology (catch branch, message includes "network"/"connection"). -/
def msgConnectionApology : String :=
  "I'm having trouble connecting right now. Please check your internet connection and try again."

/-- Unknown-failure apology (catch branch, default case). -/
def msgUnknownApology : String :=
  "I'm having a bit of trouble at the moment. Please try again in a little while."

/-- The failure classes of the catch branch of `sendUserMessageToLuna`. -/
inductive FailureKind
  | timeoutKind
  | quotaKind
  | connectivityKind
  | unknownKind
  deriving DecidableEq, Repr

/-- The classification implicit in the catch branch's `errorMessage.includes`
chain, in source order. -/
def classifyError (errorMessage : String) : FailureKind :=
  if strIncludes errorMessage "timeout" then .timeoutKind
  else if strIncludes errorMessage "quota" || strIncludes errorMessage "limit" then .quotaKind
  else if strIncludes errorMessage "network" || strIncludes errorMessage "connection" then .connectivityKind
  else .unknownKind

/-- The fixed apology string for each failure class. -/
def apologyFor : FailureKind → String
  | .timeoutKind => msgTimeoutApology
  | .quotaKind => msgQuotaApology
  | .connectivityKind => msgConnectionApology
  | .unknownKind => msgUnknownApology

/-- Result of one `sendUserMessageToLuna` call: the settled
`Promise<string | null>` value, whether `chat.sendMessage` was dispatched,
and the service state afterwards. -/
structure SendResult where
  result : Option String
  networkCalled : Bool
  state : GeminiState
  deriving DecidableEq, Repr

/-- The `catch (error)` branch of `sendUserMessageToLuna`: logs the error
and returns the apology chosen by the `errorMessage.includes` chain. -/
def catchBranch (st : GeminiState) (errorMessage : String) : SendResult :=
  let st := logError st ("API call failed: " ++ errorMessage)
  let response :=
    if strIncludes errorMessage "timeout" then msgTimeoutApology
    else if strIncludes errorMessage "quota" || strIncludes errorMessage "limit" then msgQuotaApology
    else if strIncludes errorMessage "network" || strIncludes errorMessage "connection" then msgConnectionApology
    else msgUnknownApology
  { result := some response, networkCalled := true, state := st }

/-- Source `sendUserMessageToLuna` (geminiService.ts:135-203).  Guards run in
source order before any network dispatch; `net` tells how the raced
promise settles.  The line `geminiService.getMetrics().requestCount++`
increments the spread copy returned by `getMetrics` and discards it, and
`getMetrics().lastSuccessfulRequest = new Date()` likewise writes to a
discarded copy; both appear here as `_discarded*` bindings. -/
def sendUserMessageToLuna (st : GeminiState) (userMessageText : String)
    (net : NetOutcome) : SendResult :=
  if st.ai = false then
    { result := some msgTechnicalDifficulties, networkCalled := false, state := st }
  else if userMessageText = "" ∨ (jsTrim userMessageText).length = 0 then
    { result := some msgGuidance, networkCalled := false, state := st }
  else if userMessageText.length > 4000 then
    { result := some msgTooLong, networkCalled := false, state := st }
  else
    let _discardedCount :=
      { getMetrics st with requestCount := (getMetrics st).requestCount + 1 }
    match net with
    | .success text elapsed =>
      let st1 := recordResponseTime st elapsed
      let _discardedSuccess :=
        fun (now : Int) => { getMetrics st1 with lastSuccessfulRequest := some now }
      match text with
      | some t =>
        if (jsTrim t).length > 0 then
          { result := some (jsTrim t), networkCalled := true, state := st1 }
        else
          { result := some msgEmptyResponse, networkCalled := true
            state := logError st1 "Empty response received" }
      | none =>
        { result := some msgEmptyResponse, networkCalled := true
          state := logError st1 "Empty response received" }
    | .failure errorMessage => catchBranch st errorMessage
    | .timeout => catchBranch st "Request timeout"

/-- Source `initLunaChat` (geminiService.ts:93-133): `null` without an `ai`
client; the `isHealthy` check only logs a warning and never returns;
`createOk` tells whether `ai.chats.create` throws (then `null`).  The
chat handle itself is opaque here. -/
def initLunaChat (st : GeminiState) (createOk : Bool) : Option Unit :=
  if st.ai = false then none
  else if createOk then some () else none

/-! ### The turn controller (App.tsx) -/

/-- The React state of `App` that `handleUserSpeechResult` touches.
`lunaChat : Bool` records whether the chat handle is non-null;
`liveTranscript` is the recognition hook's live transcript, cleared by
`resetUserLiveTranscript`; `pendingReadyTimer` records the
`setTimeout(() => setAppPhase(READY_TO_CHAT), 500)` scheduled on the
muted/unsupported branch. -/
structure AppState where
  appPhase : AppPhase
  messages : List ChatMessage
  lunaChat : Bool
  error : Option String := none
  lunaStatusText : String := ""
  isMuted : Bool := false
  liveTranscript : String := ""
  pendingReadyTimer : Bool := false
  deriving DecidableEq, Repr

/-- Source `addMessage` (App.tsx:106-108): appends
`{ id: Date.now().toString(), sender, text, timestamp: new Date() }`. -/
def addMessage (st : AppState) (sender : ChatMessageSender) (text : String)
    (now : Int) : AppState :=
  { st with messages :=
      st.messages ++ [{ id := toString now, sender := sender, text := text, timestamp := now }] }

/-- JavaScript truthiness of a `string | null` value. -/
def strTruthy : Option String → Bool
  | none => false
  | some s => s ≠ ""

/-- Result of one run of `handleUserSpeechResult`: the App state, the
service state, and whether `sendUserMessageToLuna` was invoked at all. -/
structure HandlerResult where
  app : AppState
  gemini : GeminiState
  sendInvoked : Bool
  deriving Repr

/-- The truthy-response branch of `handleUserSpeechResult`
(App.tsx:152-160): append Luna's message, phase `LUNA_SPEAKING`; speak it
unless muted/unsupported, else schedule the 500 ms `READY_TO_CHAT` timer. -/
def respondBranch (app : AppState) (gs : GeminiState) (lunaResponseText : String)
    (ttsSupported : Bool) (now : Int) : HandlerResult :=
  let app := addMessage app .luna lunaResponseText now
  let app := { app with appPhase := .LUNA_SPEAKING, lunaStatusText := "Luna is speaking..." }
  if app.isMuted = false ∧ ttsSupported = true then
    { app := app, gemini := gs, sendInvoked := true }
  else
    { app := { app with pendingReadyTimer := true }, gemini := gs, sendInvoked := true }

/-- The null-response branch of `handleUserSpeechResult`
(App.tsx:161-165): system apology message, phase `ERROR`. -/
def nullResponseBranch (app : AppState) (gs : GeminiState) (now : Int) : HandlerResult :=
  let app := addMessage app .system "Sorry, I couldn't get a response. Please try again." now
  { app := { app with appPhase := .ERROR, error := some "Failed to get response from Luna." }
    gemini := gs, sendInvoked := true }

/-- Source `handleUserSpeechResult` (App.tsx:136-167).  Whitespace-only text only
resets the live transcript.  Otherwise: append the human message, phase
`PROCESSING_USER_INPUT`; with a chat handle, phase `LUNA_THINKING`, reset
the transcript, await `sendUserMessageToLuna` and branch on the JS
truthiness of its result. -/
def handleUserSpeechResult (app : AppState) (gs : GeminiState) (text : String)
    (net : NetOutcome) (ttsSupported : Bool) (now : Int) : HandlerResult :=
  if jsTrim text = "" then
    { app := { app with liveTranscript := "" }, gemini := gs, sendInvoked := false }
  else
    let app := addMessage app .user text now
    let app := { app with appPhase := .PROCESSING_USER_INPUT
                          lunaStatusText := "Processing your thoughts..." }
    if app.lunaChat = true then
      let app := { app with appPhase := .LUNA_THINKING
                            lunaStatusText := "Luna is thinking..."
                            liveTranscript := "" }
      let r := sendUserMessageToLuna gs text net
      if strTruthy r.result = true then
        respondBranch app r.state (r.result.getD "") ttsSupported now
      else
        nullResponseBranch app r.state now
    else
      { app := app, gemini := gs, sendInvoked := false }

/-! ### Mute toggling (App.tsx `toggleMute` + useSpeechSynthesis `cancel`) -/

/-- The joint mute/speaking state: `isMuted` lives in `App`, `isSpeaking`
in `useSpeechSynthesis`. -/
structure MuteState where
  isMuted : Bool
  isSpeaking : Bool
  deriving DecidableEq, Repr

/-- Source `useSpeechSynthesis.cancel` (useSpeechSynthesis.ts:153-157):
`speechSynthesis.cancel(); setIsSpeaking(false)`. -/
def cancelSpeech (s : MuteState) : MuteState :=
  { s with isSpeaking := false }

/-- Source `toggleMute` (App.tsx:250-258): flip the flag; if the new state is
muted while Luna is speaking, cancel the speech. -/
def toggleMute (s : MuteState) : MuteState :=
  let newMutedState := !s.isMuted
  if newMutedState && s.isSpeaking then
    { cancelSpeech s with isMuted := newMutedState }
  else
    { s with isMuted := newMutedState }

/-- The mute/speaking-relevant events of a session: Luna starts speaking
(App speaks only when `!isMuted && ttsSupported`, and the hook's `speak`
is a no-op while already speaking), the utterance ends (`onend`), or the
operator toggles mute. -/
inductive MuteEvent
  | agentStartsSpeaking
  | speechEnded
  | toggled
  deriving DecidableEq, Repr

/-- One mute/speaking event. -/
def muteStep (s : MuteState) : MuteEvent → MuteState
  | .agentStartsSpeaking => if !s.isMuted && !s.isSpeaking then { s with isSpeaking := true } else s
  | .speechEnded => { s with isSpeaking := false }
  | .toggled => toggleMute s

/-- Run a list of mute/speaking events. -/
def runMute : MuteState → List MuteEvent → MuteState
  | s, [] => s
  | s, e :: es => runMute (muteStep s e) es

/-- Initial App state: unmuted, not speaking. -/
def initMuteState : MuteState := ⟨false, false⟩

/-! ### Speech recognition endpointing (useSpeechRecognition) -/

/-- Source constant `SPEECH_END_TIMEOUT_MS = 1500` — the fixed 1.5-second silence timer. -/
def SPEECH_END_TIMEOUT_MS : Nat := 1500

/-- The state of `useSpeechRecognition`: the single-slot silence timer is
`speechEndTimeout` (armed with its delay in ms, `none` when cleared). -/
structure RecState where
  isListening : Bool
  transcript : String
  finalizedText : Option String
  error : Option String
  speechEndTimeout : Option Nat
  deriving DecidableEq, Repr

/-- Source `clearSpeechEndTimeout`: cancels any pending silence timer. -/
def clearSpeechEndTimeout (s : RecState) : RecState :=
  { s with speechEndTimeout := none }

/-- Handler `recognition.onresult`: clear the silence timer, then append this
attempt's transcript delta (`setTranscript(prev => prev + ...)`). -/
def onResult (s : RecState) (delta : String) : RecState :=
  let s := clearSpeechEndTimeout s
  { s with transcript := s.transcript ++ delta }

/-- Handler `recognition.onspeechstart`: clear the timer, reset the transcript,
clear the error. -/
def onSpeechStart (s : RecState) : RecState :=
  let s := clearSpeechEndTimeout s
  { s with transcript := "", error := none }

/-- Handler `recognition.onspeechend`: clear the timer, then arm the fixed
1.5-second silence timer. -/
def onSpeechEnd (s : RecState) : RecState :=
  let s := clearSpeechEndTimeout s
  { s with speechEndTimeout := some SPEECH_END_TIMEOUT_MS }

/-- Handler `recognition.onend`: clear the timer, stop listening, and fire a
finalized event carrying the trimmed transcript only if it is non-empty.
Returns the state and the fired finalized event, if any. -/
def onEnd (s : RecState) : RecState × Option String :=
  let s := clearSpeechEndTimeout s
  let s := { s with isListening := false }
  if jsTrim s.transcript ≠ "" then
    ({ s with finalizedText := some (jsTrim s.transcript) }, some (jsTrim s.transcript))
  else
    (s, none)

/-- The silence timer firing: only possible while the slot is still armed;
the callback checks `recognitionRef.current && isListening` and calls
`recognition.stop()`, which makes the engine fire `onend` (modelled
synchronously). -/
def timerFires (s : RecState) : RecState × Option String :=
  match s.speechEndTimeout with
  | some _ => if s.isListening then onEnd s else (s, none)
  | none => (s, none)

/-- Events driving the recognition state machine. -/
inductive RecEvent
  | result (delta : String)
  | speechStart
  | speechEnd
  | timerFire
  | recEnded
  deriving DecidableEq, Repr

/-- One recognition event; returns the fired finalized event, if any. -/
def recStep (s : RecState) : RecEvent → RecState × Option String
  | .result d => (onResult s d, none)
  | .speechStart => (onSpeechStart s, none)
  | .speechEnd => (onSpeechEnd s, none)
  | .timerFire => timerFires s
  | .recEnded => onEnd s

/-- Run a list of recognition events, collecting every fired finalized
event in order. -/
def runRec (s : RecState) : List RecEvent → RecState × List String
  | [] => (s, [])
  | e :: es =>
    let p := recStep s e
    let q := runRec p.1 es
    (q.1, p.2.toList ++ q.2)

/-- The state right after a successful `startListening`: transcript,
finalized text and error cleared, timer cleared, listening. -/
def startedRecState : RecState :=
  { isListening := true, transcript := "", finalizedText := none
    error := none, speechEndTimeout := none }

/-! ### Session store (storageService.ts) -/

/-- The shape a `ChatMessage` takes inside the JSON text stored by
`localStorage.setItem(key, JSON.stringify(messages))`: all fields survive
structurally; the `Date` is serialized by `toISOString`, which keeps the
instant exactly at millisecond precision, so it is modelled by the ms
instant itself. -/
structure StoredChatMessage where
  id : String
  sender : ChatMessageSender
  text : String
  timestamp : Int
  audioUrl : Option String := none
  deriving DecidableEq, Repr

/-- Effect of `JSON.stringify` on one message. -/
def serializeMessage (m : ChatMessage) : StoredChatMessage :=
  ⟨m.id, m.sender, m.text, m.timestamp, m.audioUrl⟩

/-- The revival step in `loadChatHistory`. -/
def reviveMessage (m : StoredChatMessage) : ChatMessage :=
  { id := m.id, sender := m.sender, text := m.text
    timestamp := m.timestamp, audioUrl := m.audioUrl }

/-- Source constant at storageService.ts:5. -/
def CHAT_HISTORY_PREFIX : String := "lunaApp_chatHistory_"

/-- The part of `localStorage` holding chat histories (other keys hold the
profile and theme and are untouched by these two functions). -/
def LocalStorage : Type := String → Option (List StoredChatMessage)

/-- The empty store. -/
def emptyStore : LocalStorage := fun _ => none

/-- Source `saveChatHistory` (storageService.ts:34-41): `if (!symbolicNameId)
return;` then `setItem(CHAT_HISTORY_PREFIX + id, JSON.stringify(messages))`. -/
def saveChatHistory (store : LocalStorage) (symbolicNameId : String)
    (messages : List ChatMessage) : LocalStorage :=
  if symbolicNameId = "" then store
  else fun k =>
    if k = CHAT_HISTORY_PREFIX ++ symbolicNameId then some (messages.map serializeMessage)
    else store k

/-- Source `loadChatHistory` (storageService.ts:43-59): `if (!symbolicNameId)
return null;` then parse the stored JSON and revive each timestamp with
`new Date(msg.timestamp)`. -/
def loadChatHistory (store : LocalStorage) (symbolicNameId : String) :
    Option (List ChatMessage) :=
  if symbolicNameId = "" then none
  else
    match store (CHAT_HISTORY_PREFIX ++ symbolicNameId) with
    | some stored => some (stored.map reviveMessage)
    | none => none

/-! ### Concrete states used as evaluation inputs -/

/-- A freshly initialized service: client present, zeroed metrics. -/
def gsFresh : GeminiState :=
  { ai := true, metrics := initialMetrics, responseTimes := [] }

/-- An initialized service that has accumulated exactly 10 errors. -/
def gsTenErrors : GeminiState :=
  { ai := true, metrics := { initialMetrics with errorCount := 10 }, responseTimes := [] }

/-- An initialized but unhealthy service (42 accumulated errors). -/
def gsManyErrors : GeminiState :=
  { ai := true, metrics := { initialMetrics with errorCount := 42 }, responseTimes := [] }

/-- An App ready to chat, with a live chat handle and an empty log. -/
def app0 : AppState :=
  { appPhase := .READY_TO_CHAT, messages := [], lunaChat := true }

/-- A sample message. -/
def msgSample : ChatMessage :=
  { id := "1", sender := .user, text := "hi", timestamp := 0 }

/-- A 4001-character text (all `a`), exceeding the 4000-character limit. -/
def bigText : String := String.mk (List.replicate 4001 'a')

/-! ### Helper lemmas -/

theorem string_length_eq_zero_iff (s : String) : s.length = 0 ↔ s = "" := by
  cases s with
  | mk data =>
    constructor
    · intro h
      have hd : data = [] := List.length_eq_zero.mp h
      subst hd
      rfl
    · intro h
      have hd : data = ([] : List Char) := congrArg String.data h
      subst hd
      rfl

theorem not_empty_guard {text : String} (ht : jsTrim text ≠ "") :
    ¬ (text = "" ∨ (jsTrim text).length = 0) := by
  rintro (rfl | h)
  · exact ht (by decide)
  · exact ht ((string_length_eq_zero_iff _).mp h)

/-- With the client present and both input guards passed, `send` on a
rejected promise runs exactly the catch branch. -/
theorem send_failure_eq (gs : GeminiState) (text msg : String)
    (hai : gs.ai = true) (ht : jsTrim text ≠ "") (hlen : ¬ text.length > 4000) :
    sendUserMessageToLuna gs text (.failure msg) = catchBranch gs msg := by
  have h1 : ¬ gs.ai = false := by simp [hai]
  simp only [sendUserMessageToLuna, if_neg h1, if_neg (not_empty_guard ht), if_neg hlen]

/-- With the client present and both input guards passed, `send` on an
expired 30-second race runs the catch branch with `"Request timeout"`. -/
theorem send_timeout_eq (gs : GeminiState) (text : String)
    (hai : gs.ai = true) (ht : jsTrim text ≠ "") (hlen : ¬ text.length > 4000) :
    sendUserMessageToLuna gs text .timeout = catchBranch gs "Request timeout" := by
  have h1 : ¬ gs.ai = false := by simp [hai]
  simp only [sendUserMessageToLuna, if_neg h1, if_neg (not_empty_guard ht), if_neg hlen]

/-- The catch branch returns exactly the apology fixed by the failure
class of the error message. -/
theorem catchBranch_result (gs : GeminiState) (msg : String) :
    (catchBranch gs msg).result = some (apologyFor (classifyError msg)) := by
  unfold catchBranch classifyError apologyFor
  split_ifs <;> rfl

/-- Every settled `sendUserMessageToLuna` call resolves with a non-null,
non-empty string. -/
theorem send_result_nonempty (gs : GeminiState) (text : String) (net : NetOutcome) :
    ∃ s, (sendUserMessageToLuna gs text net).result = some s ∧ s ≠ "" := by
  unfold sendUserMessageToLuna
  split
  · exact ⟨_, rfl, by decide⟩
  split
  · exact ⟨_, rfl, by decide⟩
  split
  · exact ⟨_, rfl, by decide⟩
  cases net with
  | success text elapsed =>
    cases text with
    | some t =>
      dsimp only
      split
      · rename_i h
        refine ⟨jsTrim t, rfl, fun he => ?_⟩
        rw [he] at h
        exact absurd h (by decide)
      · exact ⟨_, rfl, by decide⟩
    | none => exact ⟨_, rfl, by decide⟩
  | failure msg =>
    refine ⟨_, catchBranch_result gs msg, ?_⟩
    cases classifyError msg <;> decide
  | timeout =>
    refine ⟨_, catchBranch_result gs "Request timeout", ?_⟩
    cases classifyError "Request timeout" <;> decide

/-- With a chat handle and non-blank text, `handleUserSpeechResult` takes
the truthy-response branch: phase `LUNA_SPEAKING`, error untouched, the
client invoked, and exactly the human message then the agent message
(carrying the send result verbatim) appended. -/
theorem handler_truthy (app : AppState) (gs : GeminiState) (text : String)
    (net : NetOutcome) (tts : Bool) (now : Int)
    (ht : jsTrim text ≠ "") (hc : app.lunaChat = true) :
    ∀ reply, (sendUserMessageToLuna gs text net).result = some reply → reply ≠ "" →
      (handleUserSpeechResult app gs text net tts now).app.appPhase = AppPhase.LUNA_SPEAKING
      ∧ (handleUserSpeechResult app gs text net tts now).app.error = app.error
      ∧ (handleUserSpeechResult app gs text net tts now).sendInvoked = true
      ∧ (handleUserSpeechResult app gs text net tts now).app.messages
          = app.messages ++
            [{ id := toString now, sender := .user, text := text, timestamp := now },
             { id := toString now, sender := .luna, text := reply, timestamp := now }] := by
  intro reply hr hne
  have h2 : strTruthy (some reply) = true := by
    simpa [strTruthy] using hne
  unfold handleUserSpeechResult
  rw [if_neg ht]
  simp only [addMessage, hc, if_true, hr, h2, respondBranch, Option.getD_some]
  split <;> exact ⟨rfl, rfl, rfl, by simp⟩

/-! ### Claims -/

/-- C3: for an initialized service, empty or whitespace-only text returns
the canned guidance string synchronously — no network dispatch, service
state untouched — and over-long text (beyond 4000 characters, not itself
whitespace-only) returns the canned too-long string, likewise without
reaching the network client. -/
theorem C3_input_guards_synchronous (gs : GeminiState) (text : String)
    (net : NetOutcome) (hai : gs.ai = true) :
    (jsTrim text = "" →
      sendUserMessageToLuna gs text net
        = { result := some msgGuidance, networkCalled := false, state := gs })
    ∧ (jsTrim text ≠ "" → text.length > 4000 →
      sendUserMessageToLuna gs text net
        = { result := some msgTooLong, networkCalled := false, state := gs }) := by
  have h1 : ¬ gs.ai = false := by simp [hai]
  constructor
  · intro h
    have h2 : text = "" ∨ (jsTrim text).length = 0 :=
      Or.inr (by rw [h]; rfl)
    simp only [sendUserMessageToLuna, if_neg h1, if_pos h2]
  · intro h hl
    simp only [sendUserMessageToLuna, if_neg h1, if_neg (not_empty_guard h), if_pos hl]

theorem dropWhite_replicate_a (n : Nat) :
    dropWhite (List.replicate n 'a') = List.replicate n 'a' := by
  cases n with
  | zero => rfl
  | succ m =>
    simp only [List.replicate_succ, dropWhite]
    rw [if_neg (by decide)]

theorem jsTrim_bigText : jsTrim bigText = bigText := by
  unfold jsTrim bigText
  rw [show (String.mk (List.replicate 4001 'a')).data = List.replicate 4001 'a' from rfl]
  rw [dropWhite_replicate_a, List.reverse_replicate, dropWhite_replicate_a,
    List.reverse_replicate]

theorem bigText_trim_ne : jsTrim bigText ≠ "" := by
  rw [jsTrim_bigText]
  intro h
  have h2 : (List.replicate 4001 'a').length = ([] : List Char).length :=
    congrArg List.length (congrArg String.data h)
  rw [List.length_replicate] at h2
  exact absurd h2 (by decide)

theorem bigText_length_gt : bigText.length > 4000 := by
  have h : bigText.length = 4001 := by
    show (List.replicate 4001 'a').length = 4001
    rw [List.length_replicate]
  omega

/-- C3 witness: the whitespace text `"   "` and the 4001-character text at
a fresh service. -/
theorem C3_input_guards_witness :
    gsFresh.ai = true ∧ jsTrim "   " = ""
    ∧ sendUserMessageToLuna gsFresh "   " NetOutcome.timeout
        = { result := some msgGuidance, networkCalled := false, state := gsFresh }
    ∧ jsTrim bigText ≠ "" ∧ bigText.length > 4000
    ∧ sendUserMessageToLuna gsFresh bigText NetOutcome.timeout
        = { result := some msgTooLong, networkCalled := false, state := gsFresh } :=
  ⟨rfl, by decide,
   (C3_input_guards_synchronous gsFresh "   " NetOutcome.timeout rfl).1 (by decide),
   bigText_trim_ne, bigText_length_gt,
   (C3_input_guards_synchronous gsFresh bigText NetOutcome.timeout rfl).2
     bigText_trim_ne bigText_length_gt⟩

/-- C4: a finalized utterance of only whitespace makes the controller
append no message, invoke no client call, leave the phase unchanged and
the service state untouched (it only resets the live transcript). -/
theorem C4_whitespace_submit_noop (app : AppState) (gs : GeminiState)
    (text : String) (net : NetOutcome) (tts : Bool) (now : Int)
    (h : jsTrim text = "") :
    (handleUserSpeechResult app gs text net tts now).app.messages = app.messages
    ∧ (handleUserSpeechResult app gs text net tts now).sendInvoked = false
    ∧ (handleUserSpeechResult app gs text net tts now).app.appPhase = app.appPhase
    ∧ (handleUserSpeechResult app gs text net tts now).gemini = gs := by
  unfold handleUserSpeechResult
  rw [if_pos h]
  exact ⟨rfl, rfl, rfl, rfl⟩

/-- C4 witness: the whitespace utterance `"   "` at a ready controller. -/
theorem C4_whitespace_submit_witness :
    jsTrim "   " = ""
    ∧ (handleUserSpeechResult app0 gsFresh "   " NetOutcome.timeout true 0).app.messages
        = app0.messages
    ∧ (handleUserSpeechResult app0 gsFresh "   " NetOutcome.timeout true 0).sendInvoked = false
    ∧ (handleUserSpeechResult app0 gsFresh "   " NetOutcome.timeout true 0).app.appPhase
        = app0.appPhase
    ∧ (handleUserSpeechResult app0 gsFresh "   " NetOutcome.timeout true 0).gemini = gsFresh := by
  have h := C4_whitespace_submit_noop app0 gsFresh "   " NetOutcome.timeout true 0 (by decide)
  exact ⟨by decide, h.1, h.2.1, h.2.2.1, h.2.2.2⟩

/-- C5: every send failure is classified into
{timeout, quota/rate-limit, connectivity, unknown}; the apology returned
is a fixed function of the class alone (so equal classes always yield the
same message); and the controller forwards that apology verbatim as the
appended agent message. -/
theorem C5_failure_classification_fixed_messages :
    (∀ (gs : GeminiState) (msg : String),
      (catchBranch gs msg).result = some (apologyFor (classifyError msg)))
    ∧ (∀ (gs1 gs2 : GeminiState) (msg1 msg2 : String),
        classifyError msg1 = classifyError msg2 →
        (catchBranch gs1 msg1).result = (catchBranch gs2 msg2).result)
    ∧ (∀ (app : AppState) (gs : GeminiState) (text msg : String) (tts : Bool) (now : Int),
        gs.ai = true → jsTrim text ≠ "" → ¬ text.length > 4000 → app.lunaChat = true →
        (handleUserSpeechResult app gs text (.failure msg) tts now).app.messages
          = app.messages ++
            [{ id := toString now, sender := .user, text := text, timestamp := now },
             { id := toString now, sender := .luna,
               text := apologyFor (classifyError msg), timestamp := now }]) := by
  refine ⟨fun gs msg => catchBranch_result gs msg, ?_, ?_⟩
  · intro gs1 gs2 msg1 msg2 h
    rw [catchBranch_result, catchBranch_result, h]
  · intro app gs text msg tts now hai ht hlen hc
    have hr : (sendUserMessageToLuna gs text (.failure msg)).result
        = some (apologyFor (classifyError msg)) := by
      rw [send_failure_eq gs text msg hai ht hlen, catchBranch_result]
    have hne : apologyFor (classifyError msg) ≠ "" := by
      cases classifyError msg <;> decide
    exact (handler_truthy app gs text (.failure msg) tts now ht hc _ hr hne).2.2.2

/-- C5 witness: "quota exceeded" and "rate limit reached" classify alike
and yield the same message; a "network down" failure is forwarded verbatim. -/
theorem C5_failure_classification_witness :
    classifyError "quota exceeded" = classifyError "rate limit reached"
    ∧ (catchBranch gsFresh "quota exceeded").result
        = (catchBranch gsManyErrors "rate limit reached").result
    ∧ (handleUserSpeechResult app0 gsFresh "I feel tired"
        (NetOutcome.failure "network down") true 0).app.messages
        = app0.messages ++
          [{ id := toString 0, sender := .user, text := "I feel tired", timestamp := 0 },
           { id := toString 0, sender := .luna,
             text := apologyFor (classifyError "network down"), timestamp := 0 }] :=
  ⟨by decide,
   C5_failure_classification_fixed_messages.2.1 gsFresh gsManyErrors
     "quota exceeded" "rate limit reached" (by decide),
   C5_failure_classification_fixed_messages.2.2 app0 gsFresh "I feel tired"
     "network down" true 0 rfl (by decide) (by decide) rfl⟩

/-- C1 counterexample: at a concrete timed-out exchange the send call does
yield the timeout-classified apology, but the controller's phase becomes
`LUNA_SPEAKING`, not the `ERROR` (FAILED) phase the claim asserts. -/
theorem C1_phase_counterexample :
    (sendUserMessageToLuna gsFresh "How are you" NetOutcome.timeout).result
      = some msgTimeoutApology
    ∧ (handleUserSpeechResult app0 gsFresh "How are you" NetOutcome.timeout true 0).app.appPhase
      = AppPhase.LUNA_SPEAKING
    ∧ (handleUserSpeechResult app0 gsFresh "How are you" NetOutcome.timeout true 0).app.appPhase
      ≠ AppPhase.ERROR := by
  refine ⟨?_, ?_, ?_⟩ <;> decide

/-- C1 (amended): an AI exchange call unresolved at the 30-second deadline
settles as a timeout-classified failure — `sendUserMessageToLuna` returns
the fixed timeout apology rather than hanging — but the controller
receives that apology as a non-null response: it appends it as an agent
message and moves the phase to `LUNA_SPEAKING`, never to the `ERROR`
phase. -/
theorem C1_timeout_classified_never_failed (gs : GeminiState) (app : AppState)
    (text : String) (tts : Bool) (now : Int)
    (hai : gs.ai = true) (ht : jsTrim text ≠ "") (hlen : ¬ text.length > 4000)
    (hc : app.lunaChat = true) :
    classifyError "Request timeout" = FailureKind.timeoutKind
    ∧ (sendUserMessageToLuna gs text .timeout).result = some msgTimeoutApology
    ∧ (handleUserSpeechResult app gs text .timeout tts now).app.appPhase
        = AppPhase.LUNA_SPEAKING
    ∧ (handleUserSpeechResult app gs text .timeout tts now).app.appPhase
        ≠ AppPhase.ERROR := by
  have hr : (sendUserMessageToLuna gs text .timeout).result = some msgTimeoutApology := by
    rw [send_timeout_eq gs text hai ht hlen, catchBranch_result]
    rfl
  have hphase := handler_truthy app gs text .timeout tts now ht hc msgTimeoutApology hr (by decide)
  exact ⟨by decide, hr, hphase.1, by rw [hphase.1]; decide⟩

/-- C1 witness: the amended statement at a concrete non-blank utterance. -/
theorem C1_timeout_witness :
    gsFresh.ai = true ∧ jsTrim "How are you" ≠ "" ∧ ¬ ("How are you").length > 4000
    ∧ app0.lunaChat = true
    ∧ (sendUserMessageToLuna gsFresh "How are you" NetOutcome.timeout).result
        = some msgTimeoutApology
    ∧ (handleUserSpeechResult app0 gsFresh "How are you" NetOutcome.timeout true 0).app.appPhase
        = AppPhase.LUNA_SPEAKING := by
  have h := C1_timeout_classified_never_failed gsFresh app0 "How are you" true 0 rfl
    (by decide) (by decide) rfl
  exact ⟨rfl, by decide, by decide, rfl, h.2.1, h.2.2.1⟩

/-- C10: `sendUserMessageToLuna` always settles with a non-null, non-empty
string — every failure path, the uninitialized service, empty responses
and thrown errors included, returns fallback text — so the controller's
null-response branch (system apology plus `ERROR` phase) is unreachable:
on any network outcome, a non-blank submission with a chat handle ends in
`LUNA_SPEAKING`, never `ERROR`, with exactly the human and agent messages
appended and the stored error unchanged. -/
theorem C10_send_always_resolves_nonempty :
    (∀ (gs : GeminiState) (text : String) (net : NetOutcome),
      ∃ s, (sendUserMessageToLuna gs text net).result = some s ∧ s ≠ "")
    ∧ (∀ (app : AppState) (gs : GeminiState) (text : String) (net : NetOutcome)
        (tts : Bool) (now : Int),
        jsTrim text ≠ "" → app.lunaChat = true →
        (handleUserSpeechResult app gs text net tts now).app.appPhase = AppPhase.LUNA_SPEAKING
        ∧ (handleUserSpeechResult app gs text net tts now).app.appPhase ≠ AppPhase.ERROR
        ∧ (handleUserSpeechResult app gs text net tts now).app.error = app.error
        ∧ ∃ reply, reply ≠ ""
            ∧ (handleUserSpeechResult app gs text net tts now).app.messages
              = app.messages ++
                [{ id := toString now, sender := .user, text := text, timestamp := now },
                 { id := toString now, sender := .luna, text := reply, timestamp := now }]) := by
  refine ⟨send_result_nonempty, ?_⟩
  intro app gs text net tts now ht hc
  obtain ⟨reply, hr, hne⟩ := send_result_nonempty gs text net
  have h := handler_truthy app gs text net tts now ht hc reply hr hne
  exact ⟨h.1, by rw [h.1]; decide, h.2.1, reply, hne, h.2.2.2⟩

/-- C10 witness: a concrete successful exchange at a ready controller. -/
theorem C10_witness :
    jsTrim "hello" ≠ "" ∧ app0.lunaChat = true
    ∧ (handleUserSpeechResult app0 gsFresh "hello"
        (NetOutcome.success (some "Hi!") 50) true 0).app.appPhase = AppPhase.LUNA_SPEAKING := by
  have h := C10_send_always_resolves_nonempty.2 app0 gsFresh "hello"
      (NetOutcome.success (some "Hi!") 50) true 0 (by decide) rfl
  exact ⟨by decide, rfl, h.1⟩

/-- C2: every incremental result cancels any pending silence timer; the
speech-paused signal arms the fixed 1.5-second timer; an uncancelled fire
while listening stops recognition; and on the concrete scenario — deltas
accumulating to "I feel" then "I feel tired", then silence until the
timer fires — exactly one finalized event fires, with text
"I feel tired", and listening has stopped. -/
theorem C2_endpointing_single_finalization :
    (∀ (s : RecState) (d : String), (onResult s d).speechEndTimeout = none)
    ∧ (∀ s : RecState, (onSpeechEnd s).speechEndTimeout = some SPEECH_END_TIMEOUT_MS)
    ∧ SPEECH_END_TIMEOUT_MS = 1500
    ∧ (∀ s : RecState, s.speechEndTimeout ≠ none → s.isListening = true →
        (timerFires s).1.isListening = false)
    ∧ (runRec startedRecState
        [.speechStart, .result "I feel", .result " tired", .speechEnd, .timerFire]).2
      = ["I feel tired"]
    ∧ (runRec startedRecState
        [.speechStart, .result "I feel", .result " tired", .speechEnd, .timerFire]).1.isListening
      = false := by
  refine ⟨fun s d => rfl, fun s => rfl, rfl, ?_, by decide, by decide⟩
  intro s hne hl
  unfold timerFires
  cases h : s.speechEndTimeout with
  | none => exact absurd h hne
  | some d =>
    simp only [hl, if_true]
    simp only [onEnd, clearSpeechEndTimeout]
    split <;> rfl

/-- C2 witness: the armed-timer clause at the concrete just-paused state. -/
theorem C2_endpointing_witness :
    (onSpeechEnd startedRecState).speechEndTimeout ≠ none
    ∧ (onSpeechEnd startedRecState).isListening = true
    ∧ (timerFires (onSpeechEnd startedRecState)).1.isListening = false := by
  refine ⟨by decide, by decide, ?_⟩
  exact C2_endpointing_single_finalization.2.2.2.1 (onSpeechEnd startedRecState)
    (by decide) (by decide)

theorem muteStep_preserves_inv (s : MuteState) (e : MuteEvent)
    (h : s.isMuted = true → s.isSpeaking = false) :
    (muteStep s e).isMuted = true → (muteStep s e).isSpeaking = false := by
  obtain ⟨m, sp⟩ := s
  revert h
  cases e <;> cases m <;> cases sp <;> decide

/-- In any reachable session state, Luna is never speaking while muted:
the controller only starts speech when unmuted, and muting while speaking
cancels the speech. -/
theorem runMute_inv (evs : List MuteEvent) :
    (runMute initMuteState evs).isMuted = true →
    (runMute initMuteState evs).isSpeaking = false := by
  have main : ∀ (l : List MuteEvent) (s : MuteState),
      (s.isMuted = true → s.isSpeaking = false) →
      ((runMute s l).isMuted = true → (runMute s l).isSpeaking = false) := by
    intro l
    induction l with
    | nil => intro s h; exact h
    | cons e es ih => intro s h; exact ih (muteStep s e) (muteStep_preserves_inv s e h)
  exact main evs initMuteState (by decide)

/-- C6: in any reachable session state, two successive `toggleMute` calls
restore the original mute flag; and if Luna was speaking at the first
call, the first call cancels the speech and the second does not resume
it. -/
theorem C6_toggle_mute_twice (evs : List MuteEvent) :
    (toggleMute (toggleMute (runMute initMuteState evs))).isMuted
      = (runMute initMuteState evs).isMuted
    ∧ ((runMute initMuteState evs).isSpeaking = true →
        (toggleMute (runMute initMuteState evs)).isSpeaking = false
        ∧ (toggleMute (toggleMute (runMute initMuteState evs))).isSpeaking = false) := by
  have hinv := runMute_inv evs
  generalize hgen : runMute initMuteState evs = s at hinv ⊢
  obtain ⟨m, sp⟩ := s
  revert hinv
  cases m <;> cases sp <;> decide

/-- C6 witness: the session in which Luna has just started speaking. -/
theorem C6_toggle_mute_twice_witness :
    (runMute initMuteState [MuteEvent.agentStartsSpeaking]).isSpeaking = true
    ∧ (toggleMute (runMute initMuteState [MuteEvent.agentStartsSpeaking])).isSpeaking = false
    ∧ (toggleMute (toggleMute (runMute initMuteState
        [MuteEvent.agentStartsSpeaking]))).isSpeaking = false := by
  have h := (C6_toggle_mute_twice [MuteEvent.agentStartsSpeaking]).2 (by decide)
  exact ⟨by decide, h.1, h.2⟩

/-- C7 counterexample: with the empty identity, `saveChatHistory` returns
without writing and `loadChatHistory` returns `null`, so the round trip
loses the saved list instead of reproducing it. -/
theorem C7_roundtrip_counterexample :
    loadChatHistory (saveChatHistory emptyStore "" [msgSample]) "" = none
    ∧ loadChatHistory (saveChatHistory emptyStore "" [msgSample]) "" ≠ some [msgSample] := by
  have h1 : loadChatHistory (saveChatHistory emptyStore "" [msgSample]) "" = none := rfl
  exact ⟨h1, by rw [h1]; simp⟩

/-- C7 (amended): for every NON-EMPTY identity and message list,
`saveChatHistory` then `loadChatHistory` reproduces the list exactly —
ids, senders, texts, order, and timestamps reconstructed to the same
instant. -/
theorem C7_roundtrip_nonempty_id (store : LocalStorage) (symbolicNameId : String)
    (msgs : List ChatMessage) (h : symbolicNameId ≠ "") :
    loadChatHistory (saveChatHistory store symbolicNameId msgs) symbolicNameId
      = some msgs := by
  have hcomp : ∀ m : ChatMessage, reviveMessage (serializeMessage m) = m := by
    intro m
    cases m
    rfl
  unfold loadChatHistory saveChatHistory
  rw [if_neg h, if_neg h]
  simp [List.map_map]
  rw [show reviveMessage ∘ serializeMessage = fun m => m from funext hcomp]
  simp

/-- C7 witness: the identity "alice" with a one-message history. -/
theorem C7_roundtrip_witness :
    ("alice" : String) ≠ ""
    ∧ loadChatHistory (saveChatHistory emptyStore "alice" [msgSample]) "alice"
        = some [msgSample] :=
  ⟨by decide, C7_roundtrip_nonempty_id emptyStore "alice" [msgSample] (by decide)⟩

/-- C8 counterexample: with the service initialized and exactly 10
accumulated errors — a count that does not exceed 10 — `isHealthy`
already returns false: the source threshold is `errorCount < 10`. -/
theorem C8_health_counterexample :
    gsTenErrors.ai = true ∧ gsTenErrors.metrics.errorCount = 10
    ∧ isHealthy gsTenErrors = false
    ∧ ¬ gsTenErrors.metrics.errorCount > 10 := by
  refine ⟨rfl, rfl, ?_, ?_⟩ <;> decide

/-- C8 (amended): for an initialized service, `isHealthy` is false exactly
once the error count reaches 10 (`10 ≤ errorCount`); and an unhealthy
service never blocks a call: chat creation still succeeds and a
guard-passing send still dispatches the network call. -/
theorem C8_health_threshold_and_nonblocking (st : GeminiState) (hai : st.ai = true) :
    ((isHealthy st = false) ↔ 10 ≤ st.metrics.errorCount)
    ∧ initLunaChat st true = some ()
    ∧ (∀ (text : String) (net : NetOutcome), jsTrim text ≠ "" → ¬ text.length > 4000 →
        (sendUserMessageToLuna st text net).networkCalled = true) := by
  refine ⟨?_, ?_, ?_⟩
  · simp [isHealthy, hai, Nat.not_lt]
  · simp [initLunaChat, hai]
  · intro text net ht hlen
    have h1 : ¬ st.ai = false := by
      simp [hai]
    cases net with
    | success t e =>
      simp only [sendUserMessageToLuna, if_neg h1, if_neg (not_empty_guard ht), if_neg hlen]
      cases t with
      | some s =>
        dsimp only
        split <;> rfl
      | none => rfl
    | failure msg =>
      rw [send_failure_eq st text msg hai ht hlen]
      rfl
    | timeout =>
      rw [send_timeout_eq st text hai ht hlen]
      rfl

/-- C8 witness: an initialized service with 42 accumulated errors. -/
theorem C8_health_witness :
    gsManyErrors.ai = true
    ∧ (isHealthy gsManyErrors = false ↔ 10 ≤ gsManyErrors.metrics.errorCount)
    ∧ isHealthy gsManyErrors = false
    ∧ initLunaChat gsManyErrors true = some ()
    ∧ (sendUserMessageToLuna gsManyErrors "hello" NetOutcome.timeout).networkCalled = true := by
  have h := C8_health_threshold_and_nonblocking gsManyErrors rfl
  exact ⟨rfl, h.1, by decide, h.2.1, h.2.2 "hello" NetOutcome.timeout (by decide) (by decide)⟩

/-- C9 (code bug, evaluated at the failing input): after a guard-passing,
successful send from a fresh service the network was called, the response
returned, and the latency entered the rolling window — yet the metrics
visible through `getMetrics` still show `requestCount = 0` and no
last-successful-request time, because the source mutates the spread copy
returned by `getMetrics()` instead of the service's own metrics. -/
theorem C9_metrics_updates_lost :
    (sendUserMessageToLuna gsFresh "hello"
      (NetOutcome.success (some "Hi there") 120)).networkCalled = true
    ∧ (sendUserMessageToLuna gsFresh "hello"
        (NetOutcome.success (some "Hi there") 120)).result = some "Hi there"
    ∧ (getMetrics (sendUserMessageToLuna gsFresh "hello"
        (NetOutcome.success (some "Hi there") 120)).state).requestCount = 0
    ∧ (getMetrics (sendUserMessageToLuna gsFresh "hello"
        (NetOutcome.success (some "Hi there") 120)).state).lastSuccessfulRequest = none
    ∧ (sendUserMessageToLuna gsFresh "hello"
        (NetOutcome.success (some "Hi there") 120)).state.responseTimes = [120] := by
  refine ⟨?_, ?_, ?_, ?_, ?_⟩ <;> decide

end Luna
